import Mathlib

/-!
Verification of the Redis-backed coordination layer (job queue, session
store, tag-aware cache) of the engreene backend.  The TypeScript services
are shallowly embedded: the Redis keyspace becomes association lists, the
sorted-set / set / string primitives become pure functions on them, and
each service method becomes a Lean function translated clause by clause
from the source.  Timestamps are epoch values (`Nat`), TTLs are seconds.
-/

/-- Model of a JavaScript `x || d` default for a `Nat`-valued option: an
absent or zero value falls back to the default (0 is falsy in JS). -/
def jsOrNat (o : Option Nat) (d : Nat) : Nat :=
  match o with
  | none => d
  | some v => if v = 0 then d else v

/-- Model of a JavaScript `x || d` default for an `Int`-valued option. -/
def jsOrInt (o : Option Int) (d : Int) : Int :=
  match o with
  | none => d
  | some v => if v = 0 then d else v

/-- Model of a JavaScript `x || d` default for a string option: an absent
or empty string falls back to the default ("" is falsy in JS). -/
def jsOrStr (o : Option String) (d : String) : String :=
  match o with
  | none => d
  | some v => if v = "" then d else v

/-! ### Keyed records (Redis string keys within one key namespace)

`kvGet`/`kvSet`/`kvRemove` model `GET`, `SETEX` (store a value and its
TTL) and `DEL` on the keys of one prefix namespace as an association
list. `kvSet` overwrites any previous binding of the key. -/

def kvGet {α β : Type} [DecidableEq α] : List (α × β) → α → Option β
  | [], _ => none
  | e :: rest, k => if e.1 = k then some e.2 else kvGet rest k

def kvRemove {α β : Type} [DecidableEq α] : List (α × β) → α → List (α × β)
  | [], _ => []
  | e :: rest, k => if e.1 = k then kvRemove rest k else e :: kvRemove rest k

def kvSet {α β : Type} [DecidableEq α] (l : List (α × β)) (k : α) (v : β) : List (α × β) :=
  kvRemove l k ++ [(k, v)]

/-! ### Sorted sets (Redis ZSET)

A sorted set is a list of (score, member) pairs; queries order by score,
ties by member, exactly as Redis orders equal-score members
lexicographically.  Members are `Nat` (job ids). -/

abbrev ZSet := List (Int × Nat)

/-- `ZREM`: drop every entry of the member. -/
def zRem : ZSet → Nat → ZSet
  | [], _ => []
  | e :: rest, m => if e.2 = m then zRem rest m else e :: zRem rest m

/-- `ZADD`: set the member's score (replacing any previous entry). -/
def zAdd (z : ZSet) (score : Int) (m : Nat) : ZSet :=
  zRem z m ++ [(score, m)]

/-- The members of a sorted set, disregarding order. -/
def zMembers (z : ZSet) : List Nat :=
  z.map (fun e => e.2)

/-- `ZRANGE key 0 0`: the entry that is first in (score, member) order. -/
def zMin : ZSet → Option (Int × Nat)
  | [] => none
  | e :: rest =>
    match zMin rest with
    | none => some e
    | some b => if e.1 < b.1 ∨ (e.1 = b.1 ∧ e.2 ≤ b.2) then some e else some b

/-- `ZRANGEBYSCORE key lo hi`: members whose score lies in [lo, hi], in
ascending (score, member) order. -/
def zRangeByScore (z : ZSet) (lo hi : Int) : List Nat :=
  (List.insertionSort (fun a b => a.1 < b.1 ∨ (a.1 = b.1 ∧ a.2 ≤ b.2))
      (z.filter (fun e => lo ≤ e.1 ∧ e.1 ≤ hi))).map (fun e => e.2)

namespace JobQueueService

/-- The job record persisted under `job:<id>` (jobQueueService.ts). Ids
are `Nat` in place of generated UUID strings; ISO timestamps are epoch
milliseconds. -/
structure Job where
  id : Nat
  type : String
  data : String
  priority : Int
  attempts : Nat
  maxAttempts : Nat
  delay : Nat
  createdAt : Nat
  scheduledFor : Nat
  processedAt : Option Nat := none
  completedAt : Option Nat := none
  failedAt : Option Nat := none
  error : Option String := none
deriving Repr, DecidableEq

/-- `JobOptions` of jobQueueService.ts; absent fields default inside
`addJob` with JavaScript `||` semantics. -/
structure JobOptions where
  priority : Option Int := none
  maxAttempts : Option Nat := none
  delay : Option Nat := none
deriving Repr, DecidableEq

/-- A registered handler: resolves to `()` or throws a message. -/
abbrev JobHandler := Job → Except String Unit

/-- The in-process handler registry (`handlers: Map<string, JobHandler>`). -/
abbrev Handlers := List (String × JobHandler)

/-- `registerHandler`: associate a type with a handler (overwriting). -/
def registerHandler (hs : Handlers) (t : String) (f : JobHandler) : Handlers :=
  kvSet hs t f

/-- `handlers.get(type)`. -/
def lookupHandler : Handlers → String → Option JobHandler
  | [], _ => none
  | e :: rest, t => if e.1 = t then some e.2 else lookupHandler rest t

/-- The queue's slice of the Redis keyspace: the `job:<id>` records (with
their `SETEX` TTL in seconds) and the five `queue:<name>:*` sorted
sets. -/
structure QueueState where
  jobs : List (Nat × Job × Nat)
  waiting : ZSet
  delayed : ZSet
  active : ZSet
  completed : ZSet
  failed : ZSet
deriving Repr, DecidableEq

/-- A queue with nothing stored. -/
def emptyQueue : QueueState :=
  { jobs := [], waiting := [], delayed := [], active := [], completed := [], failed := [] }

/-- `getJob(jobId)`: read and parse the stored job record. -/
def getJob (st : QueueState) (jobId : Nat) : Option Job :=
  (kvGet st.jobs jobId).map (fun e => e.1)

/-- `updateJob(job)`: re-store the record with a fresh 24h TTL. -/
def updateJob (st : QueueState) (job : Job) : QueueState :=
  { st with jobs := kvSet st.jobs job.id (job, 24 * 60 * 60) }

/-- `addJob(type, data, options)`: persist the job record with a 24h TTL
and index the id in `delayed` (scored by the scheduled epoch-ms time)
when a positive delay is given, else in `waiting` (scored by negative
priority). The generated UUID is modelled by the `jobId` argument; the
current time (`new Date()`) by `now` (epoch ms). -/
def addJob (st : QueueState) (now : Nat) (jobId : Nat) (type : String)
    (data : String) (options : JobOptions) : Nat × QueueState :=
  let scheduledFor := now + (jsOrNat options.delay 0)
  let job : Job :=
    { id := jobId
      type := type
      data := data
      priority := jsOrInt options.priority 0
      attempts := 0
      maxAttempts := jsOrNat options.maxAttempts 3
      delay := jsOrNat options.delay 0
      createdAt := now
      scheduledFor := scheduledFor }
  let jobs' := kvSet st.jobs jobId (job, 24 * 60 * 60)
  if 0 < jsOrNat options.delay 0 then
    (jobId, { st with jobs := jobs', delayed := zAdd st.delayed (Int.ofNat scheduledFor) jobId })
  else
    (jobId, { st with jobs := jobs', waiting := zAdd st.waiting (-job.priority) jobId })

/-- `failJob(job, error)`: stamp `failedAt`/`error`, re-store the record,
and move the id from `active` to `failed` (scored by the current time). -/
def failJob (st : QueueState) (now : Nat) (job : Job) (error : String) : QueueState :=
  let job1 := { job with failedAt := some now, error := some error }
  let st1 := updateJob st job1
  { st1 with
      active := zRem st1.active job.id
      failed := zAdd st1.failed (Int.ofNat now) job.id }

/-- `executeJob(job)`: with no registered handler, fail the job at once;
otherwise increment `attempts`, stamp `processedAt`, run the handler, and
on success move to `completed`, on exception either fail (attempts ≥
maxAttempts) or reschedule into `delayed` after `2^attempts` seconds. -/
def executeJob (hs : Handlers) (st : QueueState) (now : Nat) (job : Job) : QueueState :=
  match lookupHandler hs job.type with
  | none => failJob st now job ("No handler registered for job type: " ++ job.type)
  | some handler =>
    let job1 := { job with attempts := job.attempts + 1, processedAt := some now }
    let st1 := updateJob st job1
    match handler job1 with
    | Except.ok _ =>
      let job2 := { job1 with completedAt := some now }
      let st2 := updateJob st1 job2
      { st2 with
          active := zRem st2.active job1.id
          completed := zAdd st2.completed (Int.ofNat now) job1.id }
    | Except.error e =>
      if job1.maxAttempts ≤ job1.attempts then
        failJob st1 now job1 e
      else
        let retryDelay := 2 ^ job1.attempts * 1000
        let job2 := { job1 with scheduledFor := now + retryDelay }
        let st2 :=
          { st1 with
              active := zRem st1.active job1.id
              delayed := zAdd st1.delayed (Int.ofNat (now + retryDelay)) job1.id }
        updateJob st2 job2

/-- One pass of the loop body inside `processDelayedJobs`: re-read the
job record and, when it exists, move the id from `delayed` to `waiting`
with its priority score. -/
def promoteOne (st : QueueState) (jobId : Nat) : QueueState :=
  match getJob st jobId with
  | none => st
  | some job =>
    { st with
        delayed := zRem st.delayed jobId
        waiting := zAdd st.waiting (-job.priority) jobId }

/-- `processDelayedJobs()`: promote every delayed entry whose scheduled
time has passed (score in [0, now]) into `waiting`. -/
def processDelayedJobs (st : QueueState) (now : Nat) : QueueState :=
  (zRangeByScore st.delayed 0 (Int.ofNat now)).foldl promoteOne st

/-- `processNextJob()`: pop the first `waiting` entry (lowest score =
highest priority), move it to `active` (scored by dispatch time) and
execute it; a stale id with no record is simply dropped from `waiting`. -/
def processNextJob (hs : Handlers) (st : QueueState) (now : Nat) : QueueState :=
  match zMin st.waiting with
  | none => st
  | some e =>
    match getJob st e.2 with
    | none => { st with waiting := zRem st.waiting e.2 }
    | some job =>
      let st1 :=
        { st with
            waiting := zRem st.waiting e.2
            active := zAdd st.active (Int.ofNat now) e.2 }
      executeJob hs st1 now job

/-- One iteration of the interval started by `startProcessing`: first
`processDelayedJobs()`, then `processNextJob()`. -/
def tickOnce (hs : Handlers) (st : QueueState) (now : Nat) : QueueState :=
  processNextJob hs (processDelayedJobs st now) now

end JobQueueService

namespace SessionService

/-- The `'client' | 'vendor'` role union of sessionService.ts. -/
inductive Role where
  | client
  | vendor
deriving Repr, DecidableEq

/-- The `SessionData` record stored (JSON) under `session:<id>`; ISO
timestamps are epoch values. -/
structure SessionData where
  userId : String
  userRole : Role
  email : String
  createdAt : Nat
  lastActivity : Nat
deriving Repr, DecidableEq

/-- `DEFAULT_TTL = 24 * 60 * 60` seconds. -/
def DEFAULT_TTL : Nat := 24 * 60 * 60

/-- The session slice of the keyspace: `session:<id>` records with their
remaining TTL, and the `user_sessions:<userId>` sets with theirs.  With
no clock modelled, a key's remaining TTL is the TTL of the last
`SETEX`/`EXPIRE` that touched it. -/
structure SessionStore where
  sessions : List (String × SessionData × Nat)
  userSessions : List (String × List String × Nat)
deriving Repr, DecidableEq

/-- A store with no sessions. -/
def emptySessionStore : SessionStore :=
  { sessions := [], userSessions := [] }

/-- `createSession(userId, userRole, email, options)`: store the session
record under the (generated, here: supplied) id with the requested TTL,
`SADD` the id into the user's session set and `EXPIRE` that set to the
same TTL. -/
def createSession (st : SessionStore) (sessionId : String) (now : Nat)
    (userId : String) (userRole : Role) (email : String) (ttlOpt : Option Nat) :
    String × SessionStore :=
  let ttl := jsOrNat ttlOpt DEFAULT_TTL
  let data : SessionData :=
    { userId := userId, userRole := userRole, email := email
      createdAt := now, lastActivity := now }
  let members :=
    match kvGet st.userSessions userId with
    | none => [sessionId]
    | some e => if sessionId ∈ e.1 then e.1 else e.1 ++ [sessionId]
  (sessionId,
    { sessions := kvSet st.sessions sessionId (data, ttl)
      userSessions := kvSet st.userSessions userId (members, ttl) })

/-- `getSession(sessionId)`: a missing id yields null; otherwise the
record is returned with `lastActivity` updated and re-stored via `SETEX`
with the default 24h TTL.  Nothing touches the user's session set. -/
def getSession (st : SessionStore) (now : Nat) (sessionId : String) :
    Option SessionData × SessionStore :=
  match kvGet st.sessions sessionId with
  | none => (none, st)
  | some e =>
    let data := { e.1 with lastActivity := now }
    (some data, { st with sessions := kvSet st.sessions sessionId (data, DEFAULT_TTL) })

/-- `deleteUserSessions(userId)`: read the user's session-id set; if it
is empty return 0, otherwise `DEL` all the session keys together with
the set key itself, returning how many of those keys existed. -/
def deleteUserSessions (st : SessionStore) (userId : String) : Nat × SessionStore :=
  let sessionIds :=
    match kvGet st.userSessions userId with
    | none => []
    | some e => e.1
  if sessionIds.length = 0 then
    (0, st)
  else
    let sessionCount := (sessionIds.filter (fun sid => (kvGet st.sessions sid).isSome)).length
    let indexCount := if (kvGet st.userSessions userId).isSome then 1 else 0
    (sessionCount + indexCount,
      { sessions := st.sessions.filter (fun e => e.1 ∉ sessionIds)
        userSessions := kvRemove st.userSessions userId })

/-- `extendSession(sessionId, additionalSeconds = DEFAULT_TTL)`: if the
session key exists, `EXPIRE` it to the given number of seconds (a
TypeScript default parameter, so an omitted argument means 24h) and
return true; otherwise return false and change nothing. -/
def extendSession (st : SessionStore) (sessionId : String)
    (additionalSeconds : Option Nat) : Bool × SessionStore :=
  let secs := additionalSeconds.getD DEFAULT_TTL
  match kvGet st.sessions sessionId with
  | none => (false, st)
  | some e =>
    (true, { st with sessions := kvSet st.sessions sessionId (e.1, secs) })

end SessionService

namespace CacheService

/-- A Redis value in the cache's keyspace: a serialized string entry or a
tag-index set of full cache keys. -/
inductive RVal where
  | str (s : String)
  | set (members : List String)
deriving Repr, DecidableEq

/-- The cache's flat keyspace: key, value, and an optional remaining TTL
(`none` = no expiry, as for a set key created by bare `SADD`). -/
abbrev CacheStore := List (String × RVal × Option Nat)

/-- A cache with nothing stored. -/
def emptyCache : CacheStore := []

/-- `GET`-like raw read of a key. -/
def rget : CacheStore → String → Option (RVal × Option Nat)
  | [], _ => none
  | e :: rest, k => if e.1 = k then some e.2 else rget rest k

/-- Write a key's (value, ttl), overwriting any previous binding. -/
def writeRaw (st : CacheStore) (k : String) (v : RVal × Option Nat) : CacheStore :=
  kvSet st k v

/-- `SETEX key ttl value`. -/
def rsetEx (st : CacheStore) (k : String) (ttl : Nat) (v : RVal) : CacheStore :=
  writeRaw st k (v, some ttl)

/-- `SADD key member`: create the set if the key is absent (with no
expiry yet); keep the TTL untouched when the set exists; leave a
non-set value alone (Redis would raise WRONGTYPE). -/
def rsAdd (st : CacheStore) (k : String) (m : String) : CacheStore :=
  match rget st k with
  | none => writeRaw st k (RVal.set [m], none)
  | some (RVal.set ms, ttl) =>
    writeRaw st k (RVal.set (if m ∈ ms then ms else ms ++ [m]), ttl)
  | some (RVal.str _, _) => st

/-- `EXPIRE key seconds`: reset the TTL of an existing key. -/
def rexpire (st : CacheStore) (k : String) (seconds : Nat) : CacheStore :=
  match rget st k with
  | none => st
  | some (v, _) => writeRaw st k (v, some seconds)

/-- `SMEMBERS key` (empty for a missing or non-set key). -/
def rsMembers (st : CacheStore) (k : String) : List String :=
  match rget st k with
  | some (RVal.set ms, _) => ms
  | _ => []

/-- `DEL keys...`: remove the listed keys, counting those that existed. -/
def rdel (st : CacheStore) (ks : List String) : Nat × CacheStore :=
  ks.foldl
    (fun acc k =>
      if (rget acc.2 k).isSome then (acc.1 + 1, kvRemove acc.2 k) else acc)
    (0, st)

/-- `DEFAULT_TTL = 60 * 60` seconds. -/
def DEFAULT_TTL : Nat := 60 * 60

/-- `set(key, value, options)`: `SETEX` the prefixed key with the
defaulted TTL; the serialized value is modelled as the string itself. -/
def set (st : CacheStore) (key value : String) (ttlOpt : Option Nat)
    (prefixOpt : Option String) : CacheStore :=
  rsetEx st (jsOrStr prefixOpt "cache:" ++ key) (jsOrNat ttlOpt DEFAULT_TTL) (RVal.str value)

/-- `setWithTags(key, value, tags, options)`: store the entry, then for
each tag `SADD` the full key into `<prefix>tag:<tag>` and `EXPIRE` that
tag key to this call's TTL. -/
def setWithTags (st : CacheStore) (key value : String) (tags : List String)
    (ttlOpt : Option Nat) (prefixOpt : Option String) : CacheStore :=
  let pfx := jsOrStr prefixOpt "cache:"
  let fullKey := pfx ++ key
  let ttl := jsOrNat ttlOpt DEFAULT_TTL
  let st1 := set st key value ttlOpt prefixOpt
  tags.foldl
    (fun s tag => rexpire (rsAdd s (pfx ++ "tag:" ++ tag) fullKey) (pfx ++ "tag:" ++ tag) ttl)
    st1

/-- `invalidateByTags(tags, options)`: for each tag, read the tag set and
— when it is non-empty — `DEL` every indexed key together with the tag
key itself, accumulating the deleted-key count. -/
def invalidateByTags (st : CacheStore) (tags : List String)
    (prefixOpt : Option String) : Nat × CacheStore :=
  let pfx := jsOrStr prefixOpt "cache:"
  tags.foldl
    (fun acc tag =>
      let tagKey := pfx ++ "tag:" ++ tag
      let keys := rsMembers acc.2 tagKey
      if 0 < keys.length then
        let r := rdel acc.2 (keys ++ [tagKey])
        (acc.1 + r.1, r.2)
      else acc)
    (0, st)

end CacheService


/-! ### Concrete scenario states used to test the claims -/

namespace JobQueueService

/-- A handler that always throws. -/
def alwaysThrow : JobHandler := fun _ => Except.error "handler failure"

/-- A handler that always succeeds. -/
def alwaysOk : JobHandler := fun _ => Except.ok ()

/-- Registry with the always-throwing handler registered for type `boom`. -/
def throwHandlers : Handlers := registerHandler [] "boom" alwaysThrow

/-- Registry with the always-succeeding handler registered for type `work`. -/
def okHandlers : Handlers := registerHandler [] "work" alwaysOk

/-- Queue after `addJob("boom", ...)` with default options at time 0 (job id 1). -/
def throwSt1 : QueueState := (addJob emptyQueue 0 1 "boom" "payload" {}).2

/-- ... after the first tick (at 1000 ms). -/
def throwSt2 : QueueState := tickOnce throwHandlers throwSt1 1000

/-- ... after the second tick (at 3000 ms, when the first retry is due). -/
def throwSt3 : QueueState := tickOnce throwHandlers throwSt2 3000

/-- ... after the third tick (at 7000 ms, when the second retry is due). -/
def throwSt4 : QueueState := tickOnce throwHandlers throwSt3 7000

/-- Queue after adding a job of type `ghost` (id 7) for which no handler exists. -/
def ghostSt1 : QueueState := (addJob emptyQueue 0 7 "ghost" "payload" {}).2

/-- ... after one tick with an empty handler registry. -/
def ghostSt2 : QueueState := tickOnce [] ghostSt1 1000

/-- Queue holding two delay-0 jobs (ids 1 and 2) of the handled type `work`. -/
def twoJobsSt1 : QueueState :=
  (addJob (addJob emptyQueue 0 1 "work" "p1" {}).2 0 2 "work" "p2" {}).2

/-- ... after a single tick: only one of the two jobs can have been dispatched. -/
def twoJobsSt2 : QueueState := tickOnce okHandlers twoJobsSt1 1000

end JobQueueService

namespace SessionService

/-- Store after `createSession` for user `u` with a custom 100 s TTL (id `s1`, time 0). -/
def oneSession : SessionStore :=
  (createSession emptySessionStore "s1" 0 "u" Role.client "u@x.com" (some 100)).2

/-- ... after `getSession("s1")` at time 5. -/
def oneSessionRead : SessionStore := (getSession oneSession 5 "s1").2

/-- Store after creating three sessions for the same user `u`. -/
def threeSessions : SessionStore :=
  (createSession (createSession (createSession emptySessionStore
    "s1" 0 "u" Role.client "u@x.com" none).2
    "s2" 1 "u" Role.client "u@x.com" none).2
    "s3" 2 "u" Role.client "u@x.com" none).2

end SessionService

namespace CacheService

/-- Cache after `setWithTags("k1", ..., ["t"], ttl 100)` then `setWithTags("k2", ..., ["t"], ttl 50)`. -/
def twoTaggedEntries : CacheStore :=
  setWithTags (setWithTags emptyCache "k1" "v1" ["t"] (some 100) none)
    "k2" "v2" ["t"] (some 50) none

end CacheService

/-! ### Facts about the store primitives -/

theorem kvGet_kvRemove_same {α β : Type} [DecidableEq α] (l : List (α × β)) (k : α) :
    kvGet (kvRemove l k) k = none := by
  induction l with
  | nil => rfl
  | cons e rest ih =>
    by_cases h : e.1 = k
    · simpa [kvRemove, h] using ih
    · simp [kvRemove, kvGet, h, ih]

theorem kvGet_kvRemove_other {α β : Type} [DecidableEq α] (l : List (α × β)) (k k' : α)
    (h : k' ≠ k) : kvGet (kvRemove l k) k' = kvGet l k' := by
  induction l with
  | nil => rfl
  | cons e rest ih =>
    by_cases he : e.1 = k
    · simp [kvRemove, kvGet, he, Ne.symm h, ih]
    · by_cases he' : e.1 = k'
      · simp [kvRemove, kvGet, he, he', h]
      · simp [kvRemove, kvGet, he, he', ih]

theorem kvGet_kvSet_same {α β : Type} [DecidableEq α] (l : List (α × β)) (k : α) (v : β) :
    kvGet (kvSet l k v) k = some v := by
  induction l with
  | nil => simp [kvSet, kvRemove, kvGet]
  | cons e rest ih =>
    by_cases h : e.1 = k
    · simpa [kvSet, kvRemove, h] using ih
    · simp [kvSet, kvRemove, kvGet, h] at ih ⊢
      exact ih

theorem kvGet_kvSet_other {α β : Type} [DecidableEq α] (l : List (α × β)) (k k' : α) (v : β)
    (h : k' ≠ k) : kvGet (kvSet l k v) k' = kvGet l k' := by
  unfold kvSet
  induction l with
  | nil => simp [kvRemove, kvGet, Ne.symm h]
  | cons e rest ih =>
    by_cases he : e.1 = k
    · have hne : e.1 ≠ k' := by rw [he]; exact Ne.symm h
      have hrem : kvRemove (e :: rest) k = kvRemove rest k := by simp [kvRemove, he]
      rw [hrem, ih]
      simp [kvGet, hne]
    · by_cases he' : e.1 = k'
      · simp [kvRemove, kvGet, he, he', h]
      · simp [kvRemove, kvGet, he, he'] at ih ⊢
        exact ih

theorem zRem_eq_filter (z : ZSet) (m : Nat) : zRem z m = z.filter (fun e => e.2 ≠ m) := by
  induction z with
  | nil => rfl
  | cons e rest ih => by_cases h : e.2 = m <;> simp [zRem, List.filter_cons, h, ih]

theorem mem_zMembers_iff (z : ZSet) (m : Nat) : m ∈ zMembers z ↔ ∃ s, (s, m) ∈ z := by
  constructor
  · intro h
    rcases List.mem_map.mp h with ⟨e, he, hem⟩
    exact ⟨e.1, by rwa [show (e.1, m) = e from Prod.ext rfl hem.symm]⟩
  · rintro ⟨s, hs⟩
    exact List.mem_map.mpr ⟨(s, m), hs, rfl⟩

theorem not_mem_zMembers_zRem (z : ZSet) (m : Nat) : m ∉ zMembers (zRem z m) := by
  intro h
  rcases (mem_zMembers_iff _ _).mp h with ⟨s, hs⟩
  rw [zRem_eq_filter] at hs
  have := List.of_mem_filter hs
  simp at this

theorem mem_zMembers_of_zRem (z : ZSet) (m m' : Nat) (h : m' ∈ zMembers (zRem z m)) :
    m' ∈ zMembers z := by
  rcases (mem_zMembers_iff _ _).mp h with ⟨s, hs⟩
  rw [zRem_eq_filter] at hs
  exact (mem_zMembers_iff _ _).mpr ⟨s, List.mem_of_mem_filter hs⟩

theorem mem_zMembers_zRem_of_ne (z : ZSet) (m m' : Nat) (hne : m' ≠ m)
    (h : m' ∈ zMembers z) : m' ∈ zMembers (zRem z m) := by
  rcases (mem_zMembers_iff _ _).mp h with ⟨s, hs⟩
  refine (mem_zMembers_iff _ _).mpr ⟨s, ?_⟩
  rw [zRem_eq_filter]
  exact List.mem_filter.mpr ⟨hs, by simpa using hne⟩

theorem mem_zMembers_zAdd (z : ZSet) (s : Int) (m m' : Nat) :
    m' ∈ zMembers (zAdd z s m) ↔ m' = m ∨ m' ∈ zMembers z := by
  constructor
  · intro h
    rcases (mem_zMembers_iff _ _).mp h with ⟨s', hs⟩
    rcases List.mem_append.mp hs with hl | hr
    · exact Or.inr (mem_zMembers_of_zRem z m m' ((mem_zMembers_iff _ _).mpr ⟨s', hl⟩))
    · simp at hr
      exact Or.inl hr.2
  · intro h
    rcases h with rfl | h
    · exact (mem_zMembers_iff _ _).mpr ⟨s, List.mem_append.mpr (Or.inr (by simp))⟩
    · by_cases he : m' = m
      · exact (mem_zMembers_iff _ _).mpr ⟨s, List.mem_append.mpr (Or.inr (by simp [he]))⟩
      · rcases (mem_zMembers_iff _ _).mp (mem_zMembers_zRem_of_ne z m m' he h) with ⟨s', hs⟩
        exact (mem_zMembers_iff _ _).mpr ⟨s', List.mem_append.mpr (Or.inl hs)⟩

theorem zAdd_self_mem (z : ZSet) (s : Int) (m : Nat) : (s, m) ∈ zAdd z s m := by
  simp [zAdd]

theorem zMin_isSome (e : Int × Nat) (rest : ZSet) : (zMin (e :: rest)).isSome := by
  rcases hz : zMin rest with _ | b <;> simp only [zMin, hz]
  · rfl
  · by_cases hc : e.1 < b.1 ∨ (e.1 = b.1 ∧ e.2 ≤ b.2)
    · rw [if_pos hc]; rfl
    · rw [if_neg hc]; rfl

theorem zMin_le : ∀ (z : ZSet) (q : Int × Nat), zMin z = some q → ∀ p ∈ z, q.1 ≤ p.1 := by
  intro z
  induction z with
  | nil => intro q hq; simp [zMin] at hq
  | cons e rest ih =>
    intro q hq p hp
    rcases hrest : zMin rest with _ | b <;> simp only [zMin, hrest] at hq
    · have hre : rest = [] := by
        cases rest with
        | nil => rfl
        | cons x xs =>
          have hx := zMin_isSome x xs
          rw [hrest] at hx
          simp at hx
      subst hre
      simp at hp
      injection hq with h
      subst h
      subst hp
      exact le_refl _
    · by_cases hc : e.1 < b.1 ∨ (e.1 = b.1 ∧ e.2 ≤ b.2)
      · rw [if_pos hc] at hq
        injection hq with h
        subst h
        rcases List.mem_cons.mp hp with hp | hm
        · subst hp
          exact le_refl _
        · have hb := ih b hrest p hm
          have heb : e.1 ≤ b.1 := by
            rcases hc with h | ⟨h, _⟩
            · exact le_of_lt h
            · exact le_of_eq h
          exact le_trans heb hb
      · rw [if_neg hc] at hq
        injection hq with h
        subst h
        rcases List.mem_cons.mp hp with hp | hm
        · subst hp
          push_neg at hc
          exact hc.1
        · exact ih b hrest p hm

theorem mem_zRangeByScore (z : ZSet) (lo hi : Int) (m : Nat) :
    m ∈ zRangeByScore z lo hi ↔ ∃ s, (s, m) ∈ z ∧ lo ≤ s ∧ s ≤ hi := by
  unfold zRangeByScore
  constructor
  · intro h
    rcases List.mem_map.mp h with ⟨e, he, hem⟩
    have he' := (List.perm_insertionSort _ _).mem_iff.mp he
    have hf := List.mem_filter.mp he'
    have hcond := hf.2
    simp at hcond
    refine ⟨e.1, ?_, hcond.1, hcond.2⟩
    rw [show (e.1, m) = e from Prod.ext rfl hem.symm]
    exact hf.1
  · rintro ⟨s, hs, hlo, hhi⟩
    refine List.mem_map.mpr ⟨(s, m), ?_, rfl⟩
    refine (List.perm_insertionSort _ _).mem_iff.mpr ?_
    exact List.mem_filter.mpr ⟨hs, by simp [hlo, hhi]⟩

namespace JobQueueService

theorem promoteOne_jobs (st : QueueState) (j : Nat) : (promoteOne st j).jobs = st.jobs := by
  cases hg : getJob st j <;> simp [promoteOne, hg]

theorem promoteOne_failed (st : QueueState) (j : Nat) : (promoteOne st j).failed = st.failed := by
  cases hg : getJob st j <;> simp [promoteOne, hg]

theorem getJob_promoteOne (st : QueueState) (j i : Nat) :
    getJob (promoteOne st j) i = getJob st i := by
  unfold getJob
  rw [promoteOne_jobs]

theorem foldl_promoteOne_jobs : ∀ (l : List Nat) (st : QueueState),
    (l.foldl promoteOne st).jobs = st.jobs := by
  intro l
  induction l with
  | nil => intro st; rfl
  | cons x xs ih => intro st; rw [List.foldl_cons, ih, promoteOne_jobs]

theorem foldl_promoteOne_failed : ∀ (l : List Nat) (st : QueueState),
    (l.foldl promoteOne st).failed = st.failed := by
  intro l
  induction l with
  | nil => intro st; rfl
  | cons x xs ih => intro st; rw [List.foldl_cons, ih, promoteOne_failed]

theorem processDelayedJobs_failed (st : QueueState) (now : Nat) :
    (processDelayedJobs st now).failed = st.failed :=
  foldl_promoteOne_failed _ _

theorem processDelayedJobs_jobs (st : QueueState) (now : Nat) :
    (processDelayedJobs st now).jobs = st.jobs :=
  foldl_promoteOne_jobs _ _

theorem promoteOne_waiting_mono (st : QueueState) (j i : Nat)
    (h : i ∈ zMembers st.waiting) : i ∈ zMembers (promoteOne st j).waiting := by
  cases hg : getJob st j
  · simpa [promoteOne, hg] using h
  · simp only [promoteOne, hg]
    exact (mem_zMembers_zAdd _ _ _ _).mpr (Or.inr h)

theorem promoteOne_delayed_none (st : QueueState) (j i : Nat)
    (h : i ∉ zMembers st.delayed) : i ∉ zMembers (promoteOne st j).delayed := by
  cases hg : getJob st j
  · simpa [promoteOne, hg] using h
  · simp only [promoteOne, hg]
    intro hmem
    exact h (mem_zMembers_of_zRem _ _ _ hmem)

theorem foldl_promoteOne_keeps : ∀ (l : List Nat) (st : QueueState) (i : Nat),
    i ∈ zMembers st.waiting → i ∉ zMembers st.delayed →
    i ∈ zMembers (l.foldl promoteOne st).waiting ∧
      i ∉ zMembers (l.foldl promoteOne st).delayed := by
  intro l
  induction l with
  | nil => intro st i h1 h2; exact ⟨h1, h2⟩
  | cons x xs ih =>
    intro st i h1 h2
    exact ih (promoteOne st x) i (promoteOne_waiting_mono st x i h1)
      (promoteOne_delayed_none st x i h2)

theorem foldl_promoteOne_main : ∀ (l : List Nat) (st : QueueState) (i : Nat) (job : Job),
    getJob st i = some job → i ∈ l →
    i ∈ zMembers (l.foldl promoteOne st).waiting ∧
      i ∉ zMembers (l.foldl promoteOne st).delayed := by
  intro l
  induction l with
  | nil => intro st i job hg hi; simp at hi
  | cons x xs ih =>
    intro st i job hg hi
    rw [List.foldl_cons]
    by_cases hx : x = i
    · subst hx
      have h1 : x ∈ zMembers (promoteOne st x).waiting := by
        simp only [promoteOne, hg]
        exact (mem_zMembers_zAdd _ _ _ _).mpr (Or.inl rfl)
      have h2 : x ∉ zMembers (promoteOne st x).delayed := by
        simp only [promoteOne, hg]
        exact not_mem_zMembers_zRem _ _
      exact foldl_promoteOne_keeps xs _ x h1 h2
    · rcases List.mem_cons.mp hi with h | h
      · exact absurd h.symm hx
      · exact ih (promoteOne st x) i job (by rw [getJob_promoteOne]; exact hg) h

theorem processDelayedJobs_promotes (st : QueueState) (now : Nat) (i sched : Nat) (job : Job)
    (hmem : (Int.ofNat sched, i) ∈ st.delayed) (hdue : sched ≤ now)
    (hjob : getJob st i = some job) :
    i ∈ zMembers (processDelayedJobs st now).waiting ∧
      i ∉ zMembers (processDelayedJobs st now).delayed := by
  unfold processDelayedJobs
  refine foldl_promoteOne_main _ _ _ job hjob ?_
  refine (mem_zRangeByScore _ _ _ _).mpr ⟨Int.ofNat sched, hmem, ?_, ?_⟩
  · exact Int.ofNat_nonneg sched
  · exact Int.ofNat_le.mpr hdue

theorem executeJob_failed_characterization (hs : Handlers) (st : QueueState) (now : Nat)
    (job : Job) (i : Nat) (h : i ∈ zMembers (executeJob hs st now job).failed) :
    i ∈ zMembers st.failed ∨
      ∃ j, getJob (executeJob hs st now job) i = some j ∧
        (lookupHandler hs j.type = none ∨ j.maxAttempts ≤ j.attempts) := by
  rcases hlook : lookupHandler hs job.type with _ | f
  · simp only [executeJob, hlook, failJob, updateJob] at h ⊢
    rcases (mem_zMembers_zAdd _ _ _ _).mp h with rfl | hmem
    · refine Or.inr ⟨{ job with
        failedAt := some now,
        error := some ("No handler registered for job type: " ++ job.type) }, ?_, ?_⟩
      · simp only [getJob, kvGet_kvSet_same]
        rfl
      · exact Or.inl hlook
    · exact Or.inl hmem
  · rcases hrun : f { job with attempts := job.attempts + 1, processedAt := some now } with e | u
    · by_cases hmax : job.maxAttempts ≤ job.attempts + 1
      · simp only [executeJob, hlook, hrun, updateJob, failJob, if_pos hmax] at h ⊢
        rcases (mem_zMembers_zAdd _ _ _ _).mp h with rfl | hmem
        · refine Or.inr ⟨{ job with
            attempts := job.attempts + 1,
            processedAt := some now,
            failedAt := some now,
            error := some e }, ?_, Or.inr hmax⟩
          simp only [getJob, kvGet_kvSet_same]
          rfl
        · exact Or.inl hmem
      · simp only [executeJob, hlook, hrun, updateJob, if_neg hmax] at h ⊢
        exact Or.inl h
    · simp only [executeJob, hlook, hrun, updateJob] at h ⊢
      exact Or.inl h

theorem processNextJob_failed_characterization (hs : Handlers) (st : QueueState) (now : Nat)
    (i : Nat) (h : i ∈ zMembers (processNextJob hs st now).failed) :
    i ∈ zMembers st.failed ∨
      ∃ j, getJob (processNextJob hs st now) i = some j ∧
        (lookupHandler hs j.type = none ∨ j.maxAttempts ≤ j.attempts) := by
  rcases hmin : zMin st.waiting with _ | e
  · simp only [processNextJob, hmin] at h ⊢
    exact Or.inl h
  · rcases hget : getJob st e.2 with _ | job
    · simp only [processNextJob, hmin, hget] at h ⊢
      exact Or.inl h
    · simp only [processNextJob, hmin, hget] at h ⊢
      exact executeJob_failed_characterization hs _ now job i h

theorem tickOnce_failed_characterization (hs : Handlers) (st : QueueState) (now : Nat)
    (i : Nat) (h : i ∈ zMembers (tickOnce hs st now).failed) :
    i ∈ zMembers st.failed ∨
      ∃ j, getJob (tickOnce hs st now) i = some j ∧
        (lookupHandler hs j.type = none ∨ j.maxAttempts ≤ j.attempts) := by
  unfold tickOnce at h ⊢
  rcases processNextJob_failed_characterization hs _ now i h with hl | hr
  · rw [processDelayedJobs_failed] at hl
    exact Or.inl hl
  · exact Or.inr hr

end JobQueueService

namespace JobQueueService

theorem executeJob_no_handler (hs : Handlers) (st : QueueState) (now : Nat) (job : Job)
    (hlook : lookupHandler hs job.type = none) :
    executeJob hs st now job =
      failJob st now job ("No handler registered for job type: " ++ job.type) := by
  simp only [executeJob, hlook]

theorem failJob_shape (st : QueueState) (now : Nat) (job : Job) (msg : String) :
    getJob (failJob st now job msg) job.id =
        some { job with failedAt := some now, error := some msg } ∧
      job.id ∈ zMembers (failJob st now job msg).failed ∧
      (failJob st now job msg).delayed = st.delayed ∧
      job.id ∉ zMembers (failJob st now job msg).active := by
  refine ⟨?_, ?_, rfl, ?_⟩
  · simp only [failJob, updateJob, getJob, kvGet_kvSet_same]
    rfl
  · simp only [failJob, updateJob]
    exact (mem_zMembers_zAdd _ _ _ _).mpr (Or.inl rfl)
  · simp only [failJob, updateJob]
    exact not_mem_zMembers_zRem _ _

theorem executeJob_retry (hs : Handlers) (st : QueueState) (now : Nat) (job : Job)
    (f : JobHandler) (e : String)
    (hlook : lookupHandler hs job.type = some f)
    (hrun : f { job with attempts := job.attempts + 1, processedAt := some now } =
      Except.error e)
    (hlt : job.attempts + 1 < job.maxAttempts) :
    job.id ∉ zMembers (executeJob hs st now job).active ∧
      (Int.ofNat (now + 2 ^ (job.attempts + 1) * 1000), job.id) ∈
        (executeJob hs st now job).delayed ∧
      getJob (executeJob hs st now job) job.id =
        some { job with
          attempts := job.attempts + 1,
          processedAt := some now,
          scheduledFor := now + 2 ^ (job.attempts + 1) * 1000 } := by
  have hmax : ¬ job.maxAttempts ≤ job.attempts + 1 := not_le.mpr hlt
  refine ⟨?_, ?_, ?_⟩
  · simp only [executeJob, hlook, hrun, updateJob, if_neg hmax]
    exact not_mem_zMembers_zRem _ _
  · simp only [executeJob, hlook, hrun, updateJob, if_neg hmax]
    exact zAdd_self_mem _ _ _
  · simp only [executeJob, hlook, hrun, updateJob, if_neg hmax, getJob, kvGet_kvSet_same]
    rfl

end JobQueueService


@[simp] theorem jsOrNat_none (d : Nat) : jsOrNat none d = d := rfl

@[simp] theorem jsOrInt_none (d : Int) : jsOrInt none d = d := rfl

@[simp] theorem jsOrStr_none (d : String) : jsOrStr none d = d := rfl

namespace JobQueueService

theorem tickOnce_single_success (f : JobHandler) (hok : ∀ j, f j = Except.ok ())
    (ty d : String) (pr : Option Int) (ma : Option Nat) (now now' jobId : Nat) :
    jobId ∉ zMembers (tickOnce (registerHandler [] ty f)
        (addJob emptyQueue now jobId ty d
          { priority := pr, maxAttempts := ma, delay := none }).2 now').waiting ∧
    jobId ∈ zMembers (tickOnce (registerHandler [] ty f)
        (addJob emptyQueue now jobId ty d
          { priority := pr, maxAttempts := ma, delay := none }).2 now').completed ∧
    (getJob (tickOnce (registerHandler [] ty f)
        (addJob emptyQueue now jobId ty d
          { priority := pr, maxAttempts := ma, delay := none }).2 now') jobId).map
      Job.completedAt = some (some now') ∧
    (getJob (tickOnce (registerHandler [] ty f)
        (addJob emptyQueue now jobId ty d
          { priority := pr, maxAttempts := ma, delay := none }).2 now') jobId).map
      Job.attempts = some 1 := by
  simp only [addJob, emptyQueue, tickOnce, processDelayedJobs,
    zRangeByScore, List.filter_nil, List.insertionSort, List.map_nil, List.foldl_nil,
    processNextJob, zMin, zRem, zAdd, kvSet, kvRemove, kvGet, getJob, executeJob,
    lookupHandler, registerHandler, updateJob, failJob, zMembers, hok,
    jsOrNat_none, lt_self_iff_false, if_false, if_true, eq_self_iff_true,
    List.nil_append, List.append_nil, Nat.add_zero, Option.map_some', Option.map_none',
    List.map_cons, List.mem_cons]
  simp

theorem addJob_spec (st : QueueState) (now jobId : Nat) (ty d : String) (opts : JobOptions) :
    (addJob st now jobId ty d opts).1 = jobId ∧
    kvGet (addJob st now jobId ty d opts).2.jobs jobId =
      some ({ id := jobId, type := ty, data := d,
              priority := jsOrInt opts.priority 0,
              attempts := 0,
              maxAttempts := jsOrNat opts.maxAttempts 3,
              delay := jsOrNat opts.delay 0,
              createdAt := now,
              scheduledFor := now + jsOrNat opts.delay 0 }, 24 * 60 * 60) ∧
    (0 < jsOrNat opts.delay 0 →
      (Int.ofNat (now + jsOrNat opts.delay 0), jobId) ∈
          (addJob st now jobId ty d opts).2.delayed ∧
        (addJob st now jobId ty d opts).2.waiting = st.waiting) ∧
    (¬ 0 < jsOrNat opts.delay 0 →
      (-(jsOrInt opts.priority 0), jobId) ∈ (addJob st now jobId ty d opts).2.waiting ∧
        (addJob st now jobId ty d opts).2.delayed = st.delayed) := by
  by_cases hd : 0 < jsOrNat opts.delay 0
  · refine ⟨?_, ?_, fun _ => ⟨?_, ?_⟩, fun hc => absurd hd hc⟩
    · simp only [addJob, if_pos hd]
    · simp only [addJob, if_pos hd, kvGet_kvSet_same]
    · simp only [addJob, if_pos hd]
      exact zAdd_self_mem _ _ _
    · simp only [addJob, if_pos hd]
  · refine ⟨?_, ?_, fun hc => absurd hc hd, fun _ => ⟨?_, ?_⟩⟩
    · simp only [addJob, if_neg hd]
    · simp only [addJob, if_neg hd, kvGet_kvSet_same]
    · simp only [addJob, if_neg hd]
      exact zAdd_self_mem _ _ _
    · simp only [addJob, if_neg hd]

end JobQueueService

namespace SessionService

theorem getSession_refreshes_only_session (st : SessionStore) (now : Nat) (sid : String)
    (d : SessionData) (t : Nat) (h : kvGet st.sessions sid = some (d, t)) :
    getSession st now sid =
      (some { d with lastActivity := now },
        { st with sessions := kvSet st.sessions sid ({ d with lastActivity := now }, DEFAULT_TTL) }) ∧
    (getSession st now sid).2.userSessions = st.userSessions := by
  constructor
  · simp only [getSession, h]
  · simp only [getSession, h]

theorem deleteUserSessions_after_three (st : SessionStore) (u s1 s2 s3 e1 e2 e3 : String)
    (r1 r2 r3 : Role) (n1 n2 n3 : Nat) (t1 t2 t3 : Option Nat)
    (h12 : s1 ≠ s2) (h13 : s1 ≠ s3) (h23 : s2 ≠ s3)
    (hu : kvGet st.userSessions u = none) :
    (deleteUserSessions
      (createSession (createSession (createSession st s1 n1 u r1 e1 t1).2
        s2 n2 u r2 e2 t2).2 s3 n3 u r3 e3 t3).2 u).1 = 4 := by
  have h21 : s2 ≠ s1 := Ne.symm h12
  have h31 : s3 ≠ s1 := Ne.symm h13
  have h32 : s3 ≠ s2 := Ne.symm h23
  have hu3 : kvGet (createSession (createSession (createSession st s1 n1 u r1 e1 t1).2
      s2 n2 u r2 e2 t2).2 s3 n3 u r3 e3 t3).2.userSessions u =
      some ([s1, s2, s3], jsOrNat t3 DEFAULT_TTL) := by
    simp only [createSession, kvGet_kvSet_same, hu, List.mem_singleton, List.mem_cons,
      h21, h31, h32, if_false, false_or, or_false]
    simp [h21, h31, h32]
  have hsess3 : (createSession (createSession (createSession st s1 n1 u r1 e1 t1).2
      s2 n2 u r2 e2 t2).2 s3 n3 u r3 e3 t3).2.sessions =
      kvSet (kvSet (kvSet st.sessions s1
        ({ userId := u, userRole := r1, email := e1, createdAt := n1, lastActivity := n1 },
          jsOrNat t1 DEFAULT_TTL)) s2
        ({ userId := u, userRole := r2, email := e2, createdAt := n2, lastActivity := n2 },
          jsOrNat t2 DEFAULT_TTL)) s3
        ({ userId := u, userRole := r3, email := e3, createdAt := n3, lastActivity := n3 },
          jsOrNat t3 DEFAULT_TTL) := by
    simp only [createSession]
  have hg1 : (kvGet ((createSession (createSession (createSession st s1 n1 u r1 e1 t1).2
      s2 n2 u r2 e2 t2).2 s3 n3 u r3 e3 t3).2.sessions) s1).isSome = true := by
    rw [hsess3, kvGet_kvSet_other _ _ _ _ h13, kvGet_kvSet_other _ _ _ _ h12,
      kvGet_kvSet_same]
    rfl
  have hg2 : (kvGet ((createSession (createSession (createSession st s1 n1 u r1 e1 t1).2
      s2 n2 u r2 e2 t2).2 s3 n3 u r3 e3 t3).2.sessions) s2).isSome = true := by
    rw [hsess3, kvGet_kvSet_other _ _ _ _ h23, kvGet_kvSet_same]
    rfl
  have hg3 : (kvGet ((createSession (createSession (createSession st s1 n1 u r1 e1 t1).2
      s2 n2 u r2 e2 t2).2 s3 n3 u r3 e3 t3).2.sessions) s3).isSome = true := by
    rw [hsess3, kvGet_kvSet_same]
    rfl
  simp only [deleteUserSessions, hu3, List.length_cons, List.length_nil,
    List.filter_cons, hg1, hg2, hg3, if_true]
  simp

end SessionService

namespace CacheService

theorem rget_eq_kvGet : ∀ (l : CacheStore) (x : String), rget l x = kvGet l x := by
  intro l
  induction l with
  | nil => intro x; rfl
  | cons e rest ih =>
    intro x
    simp only [rget, kvGet, ih]

theorem rget_writeRaw_same (st : CacheStore) (k : String) (v : RVal × Option Nat) :
    rget (writeRaw st k v) k = some v := by
  rw [rget_eq_kvGet]
  exact kvGet_kvSet_same st k v

theorem rget_writeRaw_other (st : CacheStore) (k k' : String) (v : RVal × Option Nat)
    (h : k' ≠ k) : rget (writeRaw st k v) k' = rget st k' := by
  rw [rget_eq_kvGet, rget_eq_kvGet, writeRaw]
  exact kvGet_kvSet_other st k k' v h

theorem rsAdd_rget_other (st : CacheStore) (k k' m : String) (h : k ≠ k') :
    rget (rsAdd st k' m) k = rget st k := by
  unfold rsAdd
  rcases hg : rget st k' with _ | p
  · exact rget_writeRaw_other _ _ _ _ h
  · rcases p with ⟨v, t⟩
    cases v with
    | str s => rfl
    | set ms => exact rget_writeRaw_other _ _ _ _ h

theorem rexpire_rget_other (st : CacheStore) (k k' : String) (s : Nat) (h : k ≠ k') :
    rget (rexpire st k' s) k = rget st k := by
  unfold rexpire
  rcases hg : rget st k' with _ | p
  · rfl
  · exact rget_writeRaw_other _ _ _ _ h

theorem tagStep_establishes (s : CacheStore) (k fk : String) (ttl : Nat) :
    ∃ v, rget (rexpire (rsAdd s k fk) k ttl) k = some (v, some ttl) := by
  have hex : ∃ v t, rget (rsAdd s k fk) k = some (v, t) := by
    unfold rsAdd
    rcases hg : rget s k with _ | p
    · exact ⟨RVal.set [fk], none, rget_writeRaw_same _ _ _⟩
    · rcases p with ⟨v, t⟩
      cases v with
      | str str0 => exact ⟨RVal.str str0, t, hg⟩
      | set ms =>
        exact ⟨RVal.set (if fk ∈ ms then ms else ms ++ [fk]), t, rget_writeRaw_same _ _ _⟩
  rcases hex with ⟨v, t, hv⟩
  refine ⟨v, ?_⟩
  unfold rexpire
  rw [hv]
  exact rget_writeRaw_same _ _ _

theorem tagStep_preserves (s : CacheStore) (k k' fk : String) (ttl : Nat)
    (h : ∃ v, rget s k = some (v, some ttl)) :
    ∃ v, rget (rexpire (rsAdd s k' fk) k' ttl) k = some (v, some ttl) := by
  by_cases heq : k = k'
  · subst heq
    exact tagStep_establishes s k fk ttl
  · rcases h with ⟨v, hv⟩
    refine ⟨v, ?_⟩
    rw [rexpire_rget_other _ _ _ _ heq, rsAdd_rget_other _ _ _ _ heq]
    exact hv

theorem foldTags_preserve (p fk : String) (ttl : Nat) (k : String) :
    ∀ (l : List String) (s : CacheStore),
      (∃ v, rget s k = some (v, some ttl)) →
      ∃ v, rget (l.foldl
          (fun s tag => rexpire (rsAdd s (p ++ "tag:" ++ tag) fk) (p ++ "tag:" ++ tag) ttl) s) k =
        some (v, some ttl) := by
  intro l
  induction l with
  | nil => intro s h; exact h
  | cons t' rest ih =>
    intro s h
    exact ih _ (tagStep_preserves s k (p ++ "tag:" ++ t') fk ttl h)

theorem foldTags_mem (p fk : String) (ttl : Nat) (tag : String) :
    ∀ (l : List String) (s : CacheStore), tag ∈ l →
      ∃ v, rget (l.foldl
          (fun s tag => rexpire (rsAdd s (p ++ "tag:" ++ tag) fk) (p ++ "tag:" ++ tag) ttl) s)
          (p ++ "tag:" ++ tag) =
        some (v, some ttl) := by
  intro l
  induction l with
  | nil => intro s h; simp at h
  | cons t' rest ih =>
    intro s h
    by_cases hm : tag ∈ rest
    · exact ih _ hm
    · have ht : tag = t' := by
        rcases List.mem_cons.mp h with h' | h'
        · exact h'
        · exact absurd h' hm
      subst ht
      exact foldTags_preserve p fk ttl _ rest _ (tagStep_establishes _ _ fk ttl)

theorem setWithTags_tag_ttl (st : CacheStore) (key value : String) (tags : List String)
    (ttlOpt : Option Nat) (prefixOpt : Option String) (tag : String) (htag : tag ∈ tags) :
    ∃ v, rget (setWithTags st key value tags ttlOpt prefixOpt)
        (jsOrStr prefixOpt "cache:" ++ "tag:" ++ tag) =
      some (v, some (jsOrNat ttlOpt DEFAULT_TTL)) := by
  unfold setWithTags
  exact foldTags_mem _ _ _ tag tags _ htag

end CacheService

namespace CacheService

theorem invalidateByTags_tagged_triple (a b c t1 t2 v1 v2 v3 : String)
    (hab : "cache:" ++ a ≠ "cache:" ++ b)
    (hac : "cache:" ++ a ≠ "cache:" ++ c)
    (hat1 : "cache:" ++ a ≠ "cache:" ++ "tag:" ++ t1)
    (hat2 : "cache:" ++ a ≠ "cache:" ++ "tag:" ++ t2)
    (hbc : "cache:" ++ b ≠ "cache:" ++ c)
    (hbt1 : "cache:" ++ b ≠ "cache:" ++ "tag:" ++ t1)
    (hbt2 : "cache:" ++ b ≠ "cache:" ++ "tag:" ++ t2)
    (hct1 : "cache:" ++ c ≠ "cache:" ++ "tag:" ++ t1)
    (hct2 : "cache:" ++ c ≠ "cache:" ++ "tag:" ++ t2)
    (ht12 : "cache:" ++ "tag:" ++ t1 ≠ "cache:" ++ "tag:" ++ t2) :
    (invalidateByTags (setWithTags (setWithTags (setWithTags emptyCache
        a v1 [t1] none none) b v2 [t1, t2] none none) c v3 [t2] none none) [t1] none).1 = 3 ∧
    rget (invalidateByTags (setWithTags (setWithTags (setWithTags emptyCache
        a v1 [t1] none none) b v2 [t1, t2] none none) c v3 [t2] none none) [t1] none).2
      ("cache:" ++ a) = none ∧
    rget (invalidateByTags (setWithTags (setWithTags (setWithTags emptyCache
        a v1 [t1] none none) b v2 [t1, t2] none none) c v3 [t2] none none) [t1] none).2
      ("cache:" ++ b) = none ∧
    rget (invalidateByTags (setWithTags (setWithTags (setWithTags emptyCache
        a v1 [t1] none none) b v2 [t1, t2] none none) c v3 [t2] none none) [t1] none).2
      ("cache:" ++ "tag:" ++ t1) = none ∧
    rget (invalidateByTags (setWithTags (setWithTags (setWithTags emptyCache
        a v1 [t1] none none) b v2 [t1, t2] none none) c v3 [t2] none none) [t1] none).2
      ("cache:" ++ c) = some (RVal.str v3, some DEFAULT_TTL) ∧
    rget (invalidateByTags (setWithTags (setWithTags (setWithTags emptyCache
        a v1 [t1] none none) b v2 [t1, t2] none none) c v3 [t2] none none) [t1] none).2
      ("cache:" ++ "tag:" ++ t2) =
        some (RVal.set ["cache:" ++ b, "cache:" ++ c], some DEFAULT_TTL) := by
  have e1 : setWithTags emptyCache a v1 [t1] none none =
      [("cache:" ++ a, (RVal.str v1, some DEFAULT_TTL)),
        ("cache:" ++ "tag:" ++ t1, (RVal.set ["cache:" ++ a], some DEFAULT_TTL))] := by
    simp only [setWithTags, set, rsetEx, writeRaw, kvSet, kvRemove, emptyCache,
      rsAdd, rget, rexpire, jsOrStr_none, jsOrNat_none,
      List.foldl_cons, List.foldl_nil, List.nil_append, List.cons_append,
      hat1, if_false, if_true, eq_self_iff_true]
  have e2 : setWithTags (setWithTags emptyCache a v1 [t1] none none)
        b v2 [t1, t2] none none =
      [("cache:" ++ a, (RVal.str v1, some DEFAULT_TTL)),
        ("cache:" ++ b, (RVal.str v2, some DEFAULT_TTL)),
        ("cache:" ++ "tag:" ++ t1, (RVal.set ["cache:" ++ a, "cache:" ++ b], some DEFAULT_TTL)),
        ("cache:" ++ "tag:" ++ t2, (RVal.set ["cache:" ++ b], some DEFAULT_TTL))] := by
    rw [e1]
    simp only [setWithTags, set, rsetEx, writeRaw, kvSet, kvRemove,
      rsAdd, rget, rexpire, jsOrStr_none, jsOrNat_none,
      List.foldl_cons, List.foldl_nil, List.nil_append, List.cons_append,
      List.mem_singleton, List.mem_cons, List.not_mem_nil,
      hab, Ne.symm hab, hat1, Ne.symm hat1, hat2, Ne.symm hat2,
      hbt1, Ne.symm hbt1, hbt2, Ne.symm hbt2, ht12, Ne.symm ht12,
      if_false, if_true, eq_self_iff_true, or_false, false_or]
  have e3 : setWithTags (setWithTags (setWithTags emptyCache a v1 [t1] none none)
        b v2 [t1, t2] none none) c v3 [t2] none none =
      [("cache:" ++ a, (RVal.str v1, some DEFAULT_TTL)),
        ("cache:" ++ b, (RVal.str v2, some DEFAULT_TTL)),
        ("cache:" ++ "tag:" ++ t1, (RVal.set ["cache:" ++ a, "cache:" ++ b], some DEFAULT_TTL)),
        ("cache:" ++ c, (RVal.str v3, some DEFAULT_TTL)),
        ("cache:" ++ "tag:" ++ t2, (RVal.set ["cache:" ++ b, "cache:" ++ c], some DEFAULT_TTL))] := by
    rw [e2]
    simp only [setWithTags, set, rsetEx, writeRaw, kvSet, kvRemove,
      rsAdd, rget, rexpire, jsOrStr_none, jsOrNat_none,
      List.foldl_cons, List.foldl_nil, List.nil_append, List.cons_append,
      List.mem_singleton, List.mem_cons, List.not_mem_nil,
      hac, Ne.symm hac, hbc, Ne.symm hbc, hct1, Ne.symm hct1, hct2, Ne.symm hct2,
      ht12, Ne.symm ht12, hat2, Ne.symm hat2, hbt2, Ne.symm hbt2,
      if_false, if_true, eq_self_iff_true, or_false, false_or]
  rw [e3]
  simp only [invalidateByTags, rsMembers, rdel, rget, kvRemove,
    jsOrStr_none, jsOrNat_none,
    List.foldl_cons, List.foldl_nil, List.nil_append, List.cons_append,
    List.length_cons, List.length_nil, Option.isSome_some, Option.isSome_none,
    hab, Ne.symm hab, hac, Ne.symm hac, hat1, Ne.symm hat1, hat2, Ne.symm hat2,
    hbc, Ne.symm hbc, hbt1, Ne.symm hbt1, hbt2, Ne.symm hbt2,
    hct1, Ne.symm hct1, hct2, Ne.symm hct2, ht12, Ne.symm ht12,
    if_false, if_true, eq_self_iff_true]
  norm_num

end CacheService

/-! ### The claims -/

open JobQueueService SessionService CacheService

/-- C1 counterexample: a job of a type with no registered handler (id 7) is
moved to `failed` by the first tick although its stored `attempts` is 0,
strictly below `maxAttempts = 3`, so membership in `failed` does not imply
`attempts >= maxAttempts`. -/
theorem claim_C1_counterexample :
    7 ∈ zMembers ghostSt2.failed ∧
    (getJob ghostSt2 7).map Job.attempts = some 0 ∧
    (getJob ghostSt2 7).map Job.maxAttempts = some 3 := by
  decide

/-- C1 (amended): during any tick, a job id newly entering the `failed` index
has at that moment a stored record whose type has no registered handler or
whose `attempts` has reached `maxAttempts`; a job whose handler always throws
(default `maxAttempts = 3`) is in `failed` after exactly its third execution
and not after the first or second. -/
theorem claim_C1_failed_only_at_max :
    (∀ (hs : Handlers) (st : QueueState) (now i : Nat),
        i ∈ zMembers (tickOnce hs st now).failed →
        i ∈ zMembers st.failed ∨
          ∃ j, getJob (tickOnce hs st now) i = some j ∧
            (lookupHandler hs j.type = none ∨ j.maxAttempts ≤ j.attempts)) ∧
    (1 ∉ zMembers throwSt2.failed ∧
      1 ∉ zMembers throwSt3.failed ∧
      1 ∈ zMembers throwSt4.failed ∧
      (getJob throwSt4 1).map Job.attempts = some 3 ∧
      (getJob throwSt4 1).map Job.maxAttempts = some 3) :=
  ⟨fun hs st now i h => tickOnce_failed_characterization hs st now i h, by decide⟩

/-- C2 counterexample: executing the handlerless job of `ghostSt1` does not
increment `attempts` (still 0 after the tick), schedules no retry (the
`delayed` index stays empty), and fails the job immediately with the
descriptive error — not the claimed handler-exception treatment. -/
theorem claim_C2_counterexample :
    7 ∈ zMembers ghostSt2.failed ∧
    (getJob ghostSt2 7).map Job.attempts = some 0 ∧
    zMembers ghostSt2.delayed = [] ∧
    (getJob ghostSt2 7).map Job.error =
      some (some "No handler registered for job type: ghost") := by
  decide

/-- C2 (amended): a job whose type has no registered handler at execution
time is failed immediately: `executeJob` reduces to `failJob` with the
descriptive message, the stored record keeps its old `attempts`, the id
lands in `failed`, and no retry is scheduled (`delayed` unchanged). -/
theorem claim_C2_missing_handler (hs : Handlers) (st : QueueState) (now : Nat) (job : Job)
    (hlook : lookupHandler hs job.type = none) :
    executeJob hs st now job =
      failJob st now job ("No handler registered for job type: " ++ job.type) ∧
    getJob (executeJob hs st now job) job.id =
      some { job with
        failedAt := some now,
        error := some ("No handler registered for job type: " ++ job.type) } ∧
    job.id ∈ zMembers (executeJob hs st now job).failed ∧
    (executeJob hs st now job).delayed = st.delayed := by
  have he := executeJob_no_handler hs st now job hlook
  have hf := failJob_shape st now job ("No handler registered for job type: " ++ job.type)
  rw [he]
  exact ⟨rfl, hf.1, hf.2.1, hf.2.2.1⟩

/-- Witness for C2's amended theorem at a concrete job of type `ghost`. -/
theorem claim_C2_witness :
    lookupHandler [] "ghost" = none ∧
    (7 : Nat) ∈ zMembers (executeJob [] emptyQueue 5
      { id := 7, type := "ghost", data := "d", priority := 0, attempts := 0,
        maxAttempts := 3, delay := 0, createdAt := 0, scheduledFor := 0 }).failed :=
  ⟨rfl,
    (claim_C2_missing_handler [] emptyQueue 5
      { id := 7, type := "ghost", data := "d", priority := 0, attempts := 0,
        maxAttempts := 3, delay := 0, createdAt := 0, scheduledFor := 0 } rfl).2.2.1⟩

/-- C3 counterexample: with two delay-0 jobs of the handled, always-succeeding
type `work` waiting, one tick completes only job 1; job 2 — also added with
`delay = 0` and a registered always-succeeding handler — is still in `waiting`
and absent from `completed` after that tick. -/
theorem claim_C3_counterexample :
    2 ∈ zMembers twoJobsSt2.waiting ∧
    2 ∉ zMembers twoJobsSt2.completed ∧
    1 ∈ zMembers twoJobsSt2.completed := by
  decide

/-- C3 (amended): each tick first promotes every due `delayed` entry into
`waiting` (a due entry with an existing record is in `waiting` and gone from
`delayed` afterwards); the popped `waiting` entry is score-minimal, i.e. of
highest priority; and a job added with `delay = 0` and an always-succeeding
registered handler to an otherwise empty queue is, after one tick, absent
from `waiting`, present in `completed`, marked with `completedAt`, with one
recorded attempt. -/
theorem claim_C3_tick_semantics :
    (∀ (st : QueueState) (now i sched : Nat) (job : Job),
        (Int.ofNat sched, i) ∈ st.delayed → sched ≤ now → getJob st i = some job →
        i ∈ zMembers (processDelayedJobs st now).waiting ∧
          i ∉ zMembers (processDelayedJobs st now).delayed) ∧
    (∀ (z : ZSet) (q : Int × Nat), zMin z = some q → ∀ p ∈ z, q.1 ≤ p.1) ∧
    (∀ (f : JobHandler), (∀ j, f j = Except.ok ()) →
      ∀ (ty d : String) (pr : Option Int) (ma : Option Nat) (now now' jobId : Nat),
        jobId ∉ zMembers (tickOnce (registerHandler [] ty f)
            (addJob emptyQueue now jobId ty d
              { priority := pr, maxAttempts := ma, delay := none }).2 now').waiting ∧
        jobId ∈ zMembers (tickOnce (registerHandler [] ty f)
            (addJob emptyQueue now jobId ty d
              { priority := pr, maxAttempts := ma, delay := none }).2 now').completed ∧
        (getJob (tickOnce (registerHandler [] ty f)
            (addJob emptyQueue now jobId ty d
              { priority := pr, maxAttempts := ma, delay := none }).2 now') jobId).map
          Job.completedAt = some (some now') ∧
        (getJob (tickOnce (registerHandler [] ty f)
            (addJob emptyQueue now jobId ty d
              { priority := pr, maxAttempts := ma, delay := none }).2 now') jobId).map
          Job.attempts = some 1) :=
  ⟨fun st now i sched job h1 h2 h3 => processDelayedJobs_promotes st now i sched job h1 h2 h3,
    fun z q h => zMin_le z q h,
    fun f hok ty d pr ma now now' jobId => tickOnce_single_success f hok ty d pr ma now now' jobId⟩

/-- C4: when a job's handler throws and the incremented attempt count
`a = attempts + 1` is still below `maxAttempts`, the job leaves `active` and
is re-indexed in `delayed` at the failure time plus `2 ^ a` seconds
(2 s, 4 s, 8 s, ... for a = 1, 2, 3), with the stored record's
`scheduledFor` updated to that same time. -/
theorem claim_C4_retry_backoff (hs : Handlers) (st : QueueState) (now : Nat) (job : Job)
    (f : JobHandler) (e : String)
    (hlook : lookupHandler hs job.type = some f)
    (hrun : f { job with attempts := job.attempts + 1, processedAt := some now } =
      Except.error e)
    (hlt : job.attempts + 1 < job.maxAttempts) :
    job.id ∉ zMembers (executeJob hs st now job).active ∧
      (Int.ofNat (now + 2 ^ (job.attempts + 1) * 1000), job.id) ∈
        (executeJob hs st now job).delayed ∧
      getJob (executeJob hs st now job) job.id =
        some { job with
          attempts := job.attempts + 1,
          processedAt := some now,
          scheduledFor := now + 2 ^ (job.attempts + 1) * 1000 } :=
  executeJob_retry hs st now job f e hlook hrun hlt

/-- Witness for C4 at the concrete always-throwing handler: the fresh job
(attempts 0, maxAttempts 3) is rescheduled 2 seconds after the failure. -/
theorem claim_C4_witness :
    lookupHandler throwHandlers "boom" = some alwaysThrow ∧
    alwaysThrow
      { id := 1, type := "boom", data := "d", priority := 0, attempts := 1,
        maxAttempts := 3, delay := 0, createdAt := 0, scheduledFor := 0,
        processedAt := some 1000 } = Except.error "handler failure" ∧
    0 + 1 < 3 ∧
    (Int.ofNat (1000 + 2 ^ (0 + 1) * 1000), 1) ∈
      (executeJob throwHandlers emptyQueue 1000
        { id := 1, type := "boom", data := "d", priority := 0, attempts := 0,
          maxAttempts := 3, delay := 0, createdAt := 0, scheduledFor := 0 }).delayed :=
  ⟨rfl, rfl, by decide,
    (claim_C4_retry_backoff throwHandlers emptyQueue 1000
      { id := 1, type := "boom", data := "d", priority := 0, attempts := 0,
        maxAttempts := 3, delay := 0, createdAt := 0, scheduledFor := 0 }
      alwaysThrow "handler failure" rfl rfl (by decide)).2.1⟩

/-- C5: `addJob` returns the supplied (generated) id, persists the record
with `attempts = 0`, the defaulted priority 0 / maxAttempts 3, and a
24-hour TTL; with a positive delay the id is indexed in `delayed` under the
scheduled epoch-ms score and `waiting` is untouched (so a fresh id is absent
from it), otherwise it is indexed in `waiting` under minus the priority. -/
theorem claim_C5_addJob (st : QueueState) (now jobId : Nat) (ty d : String)
    (opts : JobOptions) :
    ((addJob st now jobId ty d opts).1 = jobId ∧
      kvGet (addJob st now jobId ty d opts).2.jobs jobId =
        some ({ id := jobId, type := ty, data := d,
                priority := jsOrInt opts.priority 0,
                attempts := 0,
                maxAttempts := jsOrNat opts.maxAttempts 3,
                delay := jsOrNat opts.delay 0,
                createdAt := now,
                scheduledFor := now + jsOrNat opts.delay 0 }, 24 * 60 * 60) ∧
      (0 < jsOrNat opts.delay 0 →
        (Int.ofNat (now + jsOrNat opts.delay 0), jobId) ∈
            (addJob st now jobId ty d opts).2.delayed ∧
          (addJob st now jobId ty d opts).2.waiting = st.waiting) ∧
      (¬ 0 < jsOrNat opts.delay 0 →
        (-(jsOrInt opts.priority 0), jobId) ∈ (addJob st now jobId ty d opts).2.waiting ∧
          (addJob st now jobId ty d opts).2.delayed = st.delayed)) ∧
    (jobId ∉ zMembers st.waiting → 0 < jsOrNat opts.delay 0 →
      jobId ∉ zMembers (addJob st now jobId ty d opts).2.waiting) := by
  refine ⟨addJob_spec st now jobId ty d opts, fun hf hd => ?_⟩
  rw [((addJob_spec st now jobId ty d opts).2.2.1 hd).2]
  exact hf

/-- C6 counterexample: after creating session `s1` (TTL 100 s) for user `u`,
`getSession` at time 5 resets the session record's TTL to the 24 h default
but leaves the user's session-index entry — including its 100 s TTL —
entirely unchanged, so the index TTL is not refreshed. -/
theorem claim_C6_counterexample :
    oneSessionRead.userSessions = oneSession.userSessions ∧
    kvGet oneSession.userSessions "u" = some (["s1"], 100) ∧
    kvGet oneSessionRead.sessions "s1" =
      some ({ userId := "u", userRole := Role.client, email := "u@x.com",
              createdAt := 0, lastActivity := 5 }, SessionService.DEFAULT_TTL) := by
  decide

/-- C6 (amended): for an existing session, `getSession` returns the stored
data with `lastActivity` set to the read time and re-stores the record with
the 24-hour default TTL (sliding expiration); it performs no write to the
owning user's session-index set, whose TTL is therefore not refreshed. -/
theorem claim_C6_getSession (st : SessionStore) (now : Nat) (sid : String)
    (d : SessionData) (t : Nat) (h : kvGet st.sessions sid = some (d, t)) :
    getSession st now sid =
      (some { d with lastActivity := now },
        { st with
            sessions := kvSet st.sessions sid
              ({ d with lastActivity := now }, SessionService.DEFAULT_TTL) }) ∧
    (getSession st now sid).2.userSessions = st.userSessions :=
  getSession_refreshes_only_session st now sid d t h

/-- Witness for C6's amended theorem at the concrete one-session store. -/
theorem claim_C6_witness :
    kvGet oneSession.sessions "s1" =
      some ({ userId := "u", userRole := Role.client, email := "u@x.com",
              createdAt := 0, lastActivity := 0 }, 100) ∧
    (getSession oneSession 5 "s1").2.userSessions = oneSession.userSessions :=
  ⟨by decide,
    (claim_C6_getSession oneSession 5 "s1"
      { userId := "u", userRole := Role.client, email := "u@x.com",
        createdAt := 0, lastActivity := 0 } 100 (by decide)).2⟩

/-- C7 counterexample: after exactly three `createSession` calls for user
`u`, `deleteUserSessions(u)` returns 4, not 3 — the `DEL` count includes the
user's session-index key as well as the three session records. -/
theorem claim_C7_counterexample :
    (deleteUserSessions threeSessions "u").1 = 4 ∧
    (deleteUserSessions threeSessions "u").1 ≠ 3 := by
  decide

/-- C7 (amended): from any store in which user `u` has no session-index
entry, after three `createSession` calls with pairwise distinct ids the
removed-count returned by `deleteUserSessions u` is 4: the three session
records plus the session-index key itself. -/
theorem claim_C7_deleteUserSessions (st : SessionStore) (u s1 s2 s3 e1 e2 e3 : String)
    (r1 r2 r3 : Role) (n1 n2 n3 : Nat) (t1 t2 t3 : Option Nat)
    (h12 : s1 ≠ s2) (h13 : s1 ≠ s3) (h23 : s2 ≠ s3)
    (hu : kvGet st.userSessions u = none) :
    (deleteUserSessions
      (createSession (createSession (createSession st s1 n1 u r1 e1 t1).2
        s2 n2 u r2 e2 t2).2 s3 n3 u r3 e3 t3).2 u).1 = 4 :=
  deleteUserSessions_after_three st u s1 s2 s3 e1 e2 e3 r1 r2 r3 n1 n2 n3 t1 t2 t3
    h12 h13 h23 hu

/-- Witness for C7's amended theorem at the concrete three-session store. -/
theorem claim_C7_witness :
    ("s1" : String) ≠ "s2" ∧ ("s1" : String) ≠ "s3" ∧ ("s2" : String) ≠ "s3" ∧
    (deleteUserSessions
      (createSession (createSession (createSession emptySessionStore
        "s1" 0 "u" Role.client "u@x.com" none).2
        "s2" 1 "u" Role.client "u@x.com" none).2
        "s3" 2 "u" Role.client "u@x.com" none).2 "u").1 = 4 :=
  ⟨by decide, by decide, by decide,
    claim_C7_deleteUserSessions emptySessionStore "u" "s1" "s2" "s3"
      "u@x.com" "u@x.com" "u@x.com" Role.client Role.client Role.client
      0 1 2 none none none (by decide) (by decide) (by decide) rfl⟩

/-- C10: `extendSession` on an existing session returns true and replaces
the remaining TTL with exactly the requested seconds (the stored data is
kept); an omitted argument means the 24-hour default; on a missing session
id it returns false and leaves the store unchanged. -/
theorem claim_C10_extendSession (st : SessionStore) (sid : String) :
    (∀ (d : SessionData) (t0 : Nat), kvGet st.sessions sid = some (d, t0) →
      (∀ s, extendSession st sid (some s) =
        (true, { st with sessions := kvSet st.sessions sid (d, s) })) ∧
      extendSession st sid none =
        (true, { st with sessions := kvSet st.sessions sid (d, SessionService.DEFAULT_TTL) })) ∧
    (kvGet st.sessions sid = none → ∀ o, extendSession st sid o = (false, st)) := by
  constructor
  · intro d t0 h
    constructor
    · intro s
      simp only [extendSession, h, Option.getD_some]
    · simp only [extendSession, h, Option.getD_none]
  · intro h o
    simp only [extendSession, h]

/-- C8: storing `a` tagged `[t1]`, `b` tagged `[t1, t2]` and `c` tagged
`[t2]` (pairwise distinct full keys), `invalidateByTags([t1])` reports 3
deleted keys and removes the entries for `a` and `b` and the `t1` tag-index
key itself, while `c` and the `t2` tag index survive. -/
theorem claim_C8_invalidateByTags (a b c t1 t2 v1 v2 v3 : String)
    (hab : "cache:" ++ a ≠ "cache:" ++ b)
    (hac : "cache:" ++ a ≠ "cache:" ++ c)
    (hat1 : "cache:" ++ a ≠ "cache:" ++ "tag:" ++ t1)
    (hat2 : "cache:" ++ a ≠ "cache:" ++ "tag:" ++ t2)
    (hbc : "cache:" ++ b ≠ "cache:" ++ c)
    (hbt1 : "cache:" ++ b ≠ "cache:" ++ "tag:" ++ t1)
    (hbt2 : "cache:" ++ b ≠ "cache:" ++ "tag:" ++ t2)
    (hct1 : "cache:" ++ c ≠ "cache:" ++ "tag:" ++ t1)
    (hct2 : "cache:" ++ c ≠ "cache:" ++ "tag:" ++ t2)
    (ht12 : "cache:" ++ "tag:" ++ t1 ≠ "cache:" ++ "tag:" ++ t2) :
    (invalidateByTags (setWithTags (setWithTags (setWithTags emptyCache
        a v1 [t1] none none) b v2 [t1, t2] none none) c v3 [t2] none none) [t1] none).1 = 3 ∧
    rget (invalidateByTags (setWithTags (setWithTags (setWithTags emptyCache
        a v1 [t1] none none) b v2 [t1, t2] none none) c v3 [t2] none none) [t1] none).2
      ("cache:" ++ a) = none ∧
    rget (invalidateByTags (setWithTags (setWithTags (setWithTags emptyCache
        a v1 [t1] none none) b v2 [t1, t2] none none) c v3 [t2] none none) [t1] none).2
      ("cache:" ++ b) = none ∧
    rget (invalidateByTags (setWithTags (setWithTags (setWithTags emptyCache
        a v1 [t1] none none) b v2 [t1, t2] none none) c v3 [t2] none none) [t1] none).2
      ("cache:" ++ "tag:" ++ t1) = none ∧
    rget (invalidateByTags (setWithTags (setWithTags (setWithTags emptyCache
        a v1 [t1] none none) b v2 [t1, t2] none none) c v3 [t2] none none) [t1] none).2
      ("cache:" ++ c) = some (RVal.str v3, some CacheService.DEFAULT_TTL) ∧
    rget (invalidateByTags (setWithTags (setWithTags (setWithTags emptyCache
        a v1 [t1] none none) b v2 [t1, t2] none none) c v3 [t2] none none) [t1] none).2
      ("cache:" ++ "tag:" ++ t2) =
        some (RVal.set ["cache:" ++ b, "cache:" ++ c], some CacheService.DEFAULT_TTL) :=
  invalidateByTags_tagged_triple a b c t1 t2 v1 v2 v3 hab hac hat1 hat2 hbc hbt1 hbt2 hct1 hct2 ht12

/-- Witness for C8 at concrete keys a, b, c and tags t1, t2. -/
theorem claim_C8_witness :
    ("cache:" ++ "a" : String) ≠ "cache:" ++ "b" ∧
    (invalidateByTags (setWithTags (setWithTags (setWithTags emptyCache
        "a" "v1" ["t1"] none none) "b" "v2" ["t1", "t2"] none none)
        "c" "v3" ["t2"] none none) ["t1"] none).1 = 3 :=
  ⟨by decide,
    (claim_C8_invalidateByTags "a" "b" "c" "t1" "t2" "v1" "v2" "v3"
      (by decide) (by decide) (by decide) (by decide) (by decide) (by decide)
      (by decide) (by decide) (by decide) (by decide)).1⟩

/-- C9 counterexample: after `setWithTags("k1", ..., ["t"], ttl 100)` and then
`setWithTags("k2", ..., ["t"], ttl 50)`, the `t` tag-index key carries TTL
50 while the tagged entry `k1` still has TTL 100, so the tag index expires
strictly before the longest-lived entry it indexes. -/
theorem claim_C9_counterexample :
    rget twoTaggedEntries "cache:tag:t" =
      some (RVal.set ["cache:k1", "cache:k2"], some 50) ∧
    rget twoTaggedEntries "cache:k1" = some (RVal.str "v1", some 100) ∧
    (50 : Nat) < 100 := by
  decide

/-- C9 (amended): every `setWithTags` call sets each listed tag's index-key
TTL to that call's (defaulted) TTL, so the tag-index expiry tracks the most
recent write that listed the tag — which may be shorter than the remaining
TTL of an earlier, longer-lived tagged entry. -/
theorem claim_C9_tag_ttl (st : CacheStore) (key value : String) (tags : List String)
    (ttlOpt : Option Nat) (prefixOpt : Option String) (tag : String) (htag : tag ∈ tags) :
    ∃ v, rget (setWithTags st key value tags ttlOpt prefixOpt)
        (jsOrStr prefixOpt "cache:" ++ "tag:" ++ tag) =
      some (v, some (jsOrNat ttlOpt CacheService.DEFAULT_TTL)) :=
  setWithTags_tag_ttl st key value tags ttlOpt prefixOpt tag htag

/-- Witness for C9's amended theorem at a concrete tagged write. -/
theorem claim_C9_witness :
    ("t" : String) ∈ ["t"] ∧
    ∃ v, rget (setWithTags emptyCache "k" "v" ["t"] (some 50) none)
        (jsOrStr none "cache:" ++ "tag:" ++ "t") =
      some (v, some (jsOrNat (some 50) CacheService.DEFAULT_TTL)) :=
  ⟨by decide, claim_C9_tag_ttl emptyCache "k" "v" ["t"] (some 50) none "t" (by decide)⟩
